import Mathlib

/-!
Verification of the conversation-orchestration core of the Calorie_Bot
repository: the per-user rate limiter (`src/utils/rate_limiter.py`), the
health calculations (`src/utils/calculations.py`), the unit normalizer
(`src/services/usda_service.py`), the three-tier nutrition resolution
chain (`src/agents/nutrition_lookup.py`), the keyword intent router
(`src/agents/router_agent.py`), and the orchestrator state machine with
its date-reference resolver and persist-and-summarize node
(`src/agents/orchestrator.py`).

Modelling conventions:
- Python floats are idealized as rationals; Python `round(x, n)` is
  modelled as exact half-to-even rounding at `n` decimal places.
- Python `time.monotonic()` timestamps are rationals supplied as
  explicit arguments.
- External collaborators (the Gemini AI client, the USDA REST client,
  the SQL persistence layer, the dateutil fuzzy parser) are modelled as
  explicit oracle arguments; everything the repository itself computes
  is translated directly from the source.
- User-visible message texts are abstracted to constructors of an
  inductive type (`RespMsg`), one per distinct source string; a Python
  `None` response is `Option.none`.
-/

namespace CalorieBot

/-! ## Character and string helpers

Executable helpers mirroring the Python string operations used by the
source: substring containment (`in`), whole-word regex search
(`re.search(r"\bkw\b", msg)`), and whitespace splitting (`str.split()`).
All operate on `List Char`.
-/

/-- `startsWithCL p s` is true iff `p` is a prefix of `s`. -/
def startsWithCL : List Char → List Char → Bool
  | [], _ => true
  | _ :: _, [] => false
  | a :: as, b :: bs => a = b && startsWithCL as bs

/-- `containsSub p s` is true iff `p` occurs contiguously in `s`;
this is Python `p in s` on strings. -/
def containsSub (p : List Char) : List Char → Bool
  | [] => startsWithCL p []
  | c :: rest => startsWithCL p (c :: rest) || containsSub p rest

/-- Python regex word character (`\w`), ASCII range: letters, digits and
underscore.  The repository only matches ASCII keywords. -/
def isWordChar (c : Char) : Bool :=
  c.isAlphanum || c = '_'

/-- Word boundary after a match: end of string or a non-word character. -/
def boundaryAfter : List Char → Bool
  | [] => true
  | c :: _ => !isWordChar c

/-- Helper for `hasWholeWord`: scan `s` keeping the previous character. -/
def hasWholeWordAux (p : List Char) (prev : Option Char) : List Char → Bool
  | [] => false
  | c :: rest =>
    ((match prev with
      | none => true
      | some pc => !isWordChar pc)
     && startsWithCL p (c :: rest)
     && boundaryAfter ((c :: rest).drop p.length))
    || hasWholeWordAux p (some c) rest

/-- `hasWholeWord p s`: `p` occurs in `s` delimited by word boundaries.
This models `re.search(r"\b" + re.escape(kw) + r"\b", msg)` for the
repository keywords, all of which consist of word characters. -/
def hasWholeWord (p s : List Char) : Bool :=
  hasWholeWordAux p none s

/-- Split on runs of whitespace, dropping empty pieces: Python
`str.split()` with no argument.  `acc` holds the current word reversed. -/
def splitWsAux (acc : List Char) : List Char → List (List Char)
  | [] => if acc.isEmpty then [] else [acc.reverse]
  | c :: rest =>
    if c.isWhitespace then
      if acc.isEmpty then splitWsAux [] rest
      else acc.reverse :: splitWsAux [] rest
    else splitWsAux (c :: acc) rest

/-- Whitespace tokenization of a string, as a list of strings. -/
def splitWS (s : String) : List String :=
  (splitWsAux [] s.data).map List.asString

/-- Python `str.lower()` (ASCII range, which covers the repository's
vocabulary), character by character. -/
def strLower (s : String) : String := ⟨s.data.map Char.toLower⟩

/-- Python `str.upper()` (ASCII range), character by character. -/
def strUpper (s : String) : String := ⟨s.data.map Char.toUpper⟩

/-- Drop leading whitespace characters. -/
def dropLeadingWs : List Char → List Char
  | [] => []
  | c :: rest => if c.isWhitespace then dropLeadingWs rest else c :: rest

/-- Python `str.strip()`: drop whitespace from both ends. -/
def strTrim (s : String) : String :=
  ⟨(dropLeadingWs (dropLeadingWs s.data).reverse).reverse⟩

/-! ## Rounding

Python `round` uses round-half-to-even (banker's rounding).  `round2`,
`round1`, `round0q` model `round(x, 2)`, `round(x, 1)` and `round(x, 0)`
on idealized rational values. -/

/-- Round a rational to the nearest integer, ties to even. -/
def roundHalfEven (q : ℚ) : ℤ :=
  let f := ⌊q⌋
  let r := q - (f : ℚ)
  if r < 1/2 then f
  else if 1/2 < r then f + 1
  else if 2 ∣ f then f else f + 1

/-- Python `round(x, 2)`. -/
def round2 (q : ℚ) : ℚ := (roundHalfEven (q * 100) : ℚ) / 100

/-- Python `round(x, 1)`. -/
def round1 (q : ℚ) : ℚ := (roundHalfEven (q * 10) : ℚ) / 10

/-- Python `round(x, 0)` (still a float in Python, an integer value). -/
def round0q (q : ℚ) : ℚ := (roundHalfEven q : ℚ)

/-! ## Rate limiter (`src/utils/rate_limiter.py`)

The limiter keeps, per user, a list of `time.monotonic()` timestamps.
Per-user buckets are independent, so the model carries a single bucket;
`now` is the current monotonic time passed explicitly. -/

/-- `RateLimiter._prune`: drop timestamps not strictly newer than
`now - window_seconds`. -/
def prune (window now : ℚ) (bucket : List ℚ) : List ℚ :=
  bucket.filter (fun t => now - window < t)

/-- `RateLimiter.is_allowed`: prune, reject if the pruned bucket has
reached `max_requests`, otherwise record `now` and admit.  Returns the
decision and the updated bucket. -/
def isAllowed (maxRequests : ℕ) (window now : ℚ) (bucket : List ℚ) :
    Bool × List ℚ :=
  let b := prune window now bucket
  if maxRequests ≤ b.length then (false, b)
  else (true, b ++ [now])

/-- `RateLimiter.time_until_allowed`: prune, return 0 when under the
limit, else the remaining time until the oldest in-window timestamp
exits the window. -/
def timeUntilAllowed (maxRequests : ℕ) (window now : ℚ) (bucket : List ℚ) : ℚ :=
  let b := prune window now bucket
  if b.length < maxRequests then 0
  else max 0 (window - (now - (b.headD 0)))

/-! ## Health calculations (`src/utils/calculations.py`) -/

/-- `ActivityLevel` multipliers, keyed by enum member name as used by
`ActivityLevel[activity_level.upper()]`. -/
def activityTable : List (String × ℚ) :=
  [("SEDENTARY", 1.2), ("LIGHTLY_ACTIVE", 1.375), ("MODERATELY_ACTIVE", 1.55),
   ("VERY_ACTIVE", 1.725), ("EXTRA_ACTIVE", 1.9)]

/-- `GoalType` calorie adjustments, keyed by enum member name as used by
`GoalType[goal_type.upper()]`.  `GENERAL_HEALTH` aliases
`MAINTAIN_WEIGHT` in the Python enum (same value 0); name lookup works
for both. -/
def goalAdjTable : List (String × ℚ) :=
  [("LOSE_WEIGHT", -500), ("MAINTAIN_WEIGHT", 0), ("GAIN_WEIGHT", 500),
   ("BUILD_MUSCLE", 300), ("GENERAL_HEALTH", 0)]

/-- The adjustment applied by `calculate_calorie_goal`: table value, or
0 when the name lookup raises `KeyError`. -/
def goalAdjustment (goal_type : String) : ℚ :=
  ((goalAdjTable.lookup (strUpper goal_type)).getD 0)

/-- `calculate_bmr` (Mifflin-St Jeor).  In the source the `female`
branch and the default branch both subtract 161, so the condition
collapses to the male test. -/
def calculate_bmr (weight_kg height_cm : ℚ) (age : ℤ) (gender : String) : ℚ :=
  let bmr := 10 * weight_kg + 25/4 * height_cm - 5 * (age : ℚ)
  let bmr := if strLower gender = "male" ∨ strLower gender = "m" then bmr + 5 else bmr - 161
  round1 bmr

/-- `calculate_tdee`: BMR scaled by the activity multiplier (default
sedentary on `KeyError`), rounded to 0 decimals. -/
def calculate_tdee (weight_kg height_cm : ℚ) (age : ℤ) (gender activity_level : String) : ℚ :=
  let bmr := calculate_bmr weight_kg height_cm age gender
  let multiplier := (activityTable.lookup (strUpper activity_level)).getD 1.2
  round0q (bmr * multiplier)

/-- `calculate_calorie_goal`: TDEE plus goal adjustment, clamped below
at 1200, truncated to int.  The clamped value is positive, so Python
`int()` truncation equals the floor. -/
def calculate_calorie_goal (tdee : ℚ) (goal_type : String) : ℤ :=
  let adjustment := goalAdjustment goal_type
  let calorie_goal := tdee + adjustment
  let clamped := max calorie_goal 1200
  ⌊clamped⌋

/-! ## Unit normalizer (`USDAService.calculate_nutrition_for_serving`) -/

/-- Exact weight units (grams per unit). -/
def weight_units : List (String × ℚ) :=
  [("g", 1), ("gram", 1), ("grams", 1),
   ("kg", 1000), ("kilogram", 1000),
   ("oz", 28.35), ("ounce", 28.35), ("ounces", 28.35),
   ("lb", 453.592), ("pound", 453.592), ("pounds", 453.592)]

/-- Volume and portion units (approximate grams). -/
def portion_units : List (String × ℚ) :=
  [("cup", 240), ("cups", 240),
   ("tbsp", 15), ("tablespoon", 15), ("tablespoons", 15),
   ("tsp", 5), ("teaspoon", 5), ("teaspoons", 5),
   ("bowl", 300), ("bowls", 300),
   ("plate", 300), ("plates", 300),
   ("glass", 240)]

/-- Size descriptors (grams per item). -/
def size_units : List (String × ℚ) :=
  [("small", 80), ("medium", 130), ("large", 180),
   ("standard", 100), ("regular", 130)]

/-- Countable item units (grams per piece). -/
def piece_units : List (String × ℚ) :=
  [("piece", 30), ("pieces", 30),
   ("slice", 30), ("slices", 30),
   ("chip", 5), ("chips", 5),
   ("nacho", 7), ("nachos", 7),
   ("cracker", 5), ("crackers", 5),
   ("cookie", 30), ("cookies", 30),
   ("strip", 20), ("strips", 20),
   ("nugget", 18), ("nuggets", 18),
   ("wing", 30), ("wings", 30),
   ("bite", 15), ("bites", 15),
   ("scoop", 70), ("scoops", 70),
   ("handful", 30),
   ("bar", 50), ("bars", 50),
   ("patty", 85), ("patties", 85),
   ("fillet", 170), ("fillets", 170),
   ("breast", 170), ("breasts", 170),
   ("thigh", 115), ("thighs", 115),
   ("drumstick", 75), ("drumsticks", 75),
   ("egg", 50), ("eggs", 50),
   ("wrap", 60), ("wraps", 60),
   ("tortilla", 50), ("tortillas", 50),
   ("roll", 50), ("rolls", 50)]

/-- Generic serving units (one USDA standard portion, 100 g). -/
def serving_units : List (String × ℚ) :=
  [("serving", 100), ("servings", 100), ("portion", 100), ("portions", 100)]

/-- The merged `all_units` dict.  The Python code builds it by
successive `dict.update`; the five tables have pairwise disjoint keys,
so first-match lookup over the concatenation agrees with the dict. -/
def all_units : List (String × ℚ) :=
  weight_units ++ portion_units ++ size_units ++ piece_units ++ serving_units

/-- The mass in grams computed by `calculate_nutrition_for_serving`:
look up the lowercased, stripped unit in the merged table; on a miss,
quantities at most 2 count as whole servings of 100 g and larger
quantities as 30 g pieces. -/
def gramsForServing (quantity : ℚ) (unit : String) : ℚ :=
  match all_units.lookup (strTrim (strLower unit)) with
  | some factor => quantity * factor
  | none => if quantity ≤ 2 then quantity * 100 else quantity * 30

/-- A candidate row returned by `USDAService.search_foods` after
`_parse_food_item`: description plus per-100 g nutrients.  A nutrient
key absent from the parsed dict is read back as 0 by the `.get(~, 0)`
calls, so absent and zero coincide and the fields are plain rationals. -/
structure Candidate where
  description : String
  calories : ℚ
  protein : ℚ
  carbs : ℚ
  fat : ℚ
  fiber : ℚ
  sugar : ℚ
deriving DecidableEq, Repr

/-- The nutrient block returned by `calculate_nutrition_for_serving`. -/
structure ServingNutrition where
  calories : ℚ
  protein : ℚ
  carbs : ℚ
  fat : ℚ
  fiber : ℚ
  sugar : ℚ
  grams : ℚ
deriving DecidableEq, Repr

/-- `USDAService.calculate_nutrition_for_serving`: scale the per-100 g
nutrients by `grams / 100`, rounding each value to 2 decimals. -/
def calculate_nutrition_for_serving (food_data : Candidate) (quantity : ℚ) (unit : String) :
    ServingNutrition :=
  let grams := gramsForServing quantity unit
  let multiplier := grams / 100
  { calories := round2 (food_data.calories * multiplier)
    protein := round2 (food_data.protein * multiplier)
    carbs := round2 (food_data.carbs * multiplier)
    fat := round2 (food_data.fat * multiplier)
    fiber := round2 (food_data.fiber * multiplier)
    sugar := round2 (food_data.sugar * multiplier)
    grams := round2 grams }

/-! ## Nutrition resolution chain (`src/agents/nutrition_lookup.py`) -/

/-- A parsed food item as produced by the parsing collaborator.  The
Python dict accessors use defaults `.get("name", "")`,
`.get("quantity", 1)`, `.get("unit", "serving")`; the model takes the
post-default values as fields.  `meal_type` may be absent
(`.get("meal_type", "other")` in the persistence node). -/
structure ParsedFood where
  name : String
  quantity : ℚ
  unit : String
  meal_type : Option String
deriving DecidableEq, Repr

/-- An enriched food item: the parsed item plus nutrients, the `source`
tag (`"usda"`, `"ai_estimated"` or `"estimated"`) and the `confidence`
tag.  Fallback records never set `fiber`/`sugar` keys; the summation
code reads absent keys as 0, so the model stores 0 there. -/
structure EnrichedFood where
  food : ParsedFood
  calories : ℚ
  protein : ℚ
  carbs : ℚ
  fat : ℚ
  fiber : ℚ
  sugar : ℚ
  source : String
  confidence : String
deriving DecidableEq, Repr

/-- The specification vocabulary for resolution tiers.  The source
encodes the tier in the `source` string: `"usda"` is the database tier,
`"ai_estimated"` the AI tier, `"estimated"` the unknown tier (the
formatter likewise treats `source == "estimated"` with
`confidence == "unknown"` as the not-in-database case). -/
inductive Provenance where
  | database
  | aiEstimated
  | unknown
deriving DecidableEq, Repr

/-- Map a record to the tier named by its `source` tag. -/
def provenanceOf (e : EnrichedFood) : Provenance :=
  if e.source = "usda" then .database
  else if e.source = "ai_estimated" then .aiEstimated
  else .unknown

/-- `NutritionAgent._calculate_match_confidence`: substring containment
in either direction gives `high`; full token coverage also gives
`high`; at least half token coverage gives `medium`; otherwise `low`.
Tokens are the deduplicated whitespace-split words (Python `set`). -/
def calcMatchConfidence (query matched_description : String) : String :=
  let query_lower := strLower query
  let matched_lower := strLower matched_description
  if containsSub query_lower.data matched_lower.data
     || containsSub matched_lower.data query_lower.data then "high"
  else
    let query_words := (splitWS query_lower).dedup
    let matched_words := (splitWS matched_lower).dedup
    let overlap := (query_words.filter (fun w => matched_words.contains w)).length
    if query_words.length ≤ overlap then "high"
    else if query_words.length ≤ 2 * overlap then "medium"
    else "low"

/-- The macro block a successful AI estimate yields. -/
structure Macros where
  calories : ℚ
  protein : ℚ
  carbs : ℚ
  fat : ℚ
deriving DecidableEq, Repr

/-- The possible shapes of the AI estimation reply, after JSON
decoding.  `malformed` covers every exception path of
`_ai_estimate_nutrition` (network error, JSON decode error, non-numeric
field); `parsed` carries the decoded `unknown` flag and the numeric
fields with their `.get(~, 0)` defaults applied. -/
inductive AIResp where
  | malformed
  | parsed (unknownFlag : Bool) (calories protein carbs fat : ℚ)
deriving DecidableEq, Repr

/-- `NutritionAgent._ai_estimate_nutrition` decision logic: `None` on
any exception, on an explicit `unknown` flag, or when `calories` is not
strictly positive; otherwise the numeric macros. -/
def aiEstimateNutrition : AIResp → Option Macros
  | .malformed => none
  | .parsed unknownFlag calories protein carbs fat =>
    if unknownFlag then none
    else if 0 < calories then some ⟨calories, protein, carbs, fat⟩
    else none

/-- `NutritionAgent._create_fallback_food`: on a successful AI estimate,
an `ai_estimated`/`medium` record with the macros rounded to 2 decimals;
otherwise a zero-nutrient `estimated`/`unknown` record. -/
def createFallbackFood (food : ParsedFood) (resp : AIResp) : EnrichedFood :=
  match aiEstimateNutrition resp with
  | some m =>
    { food := food
      calories := round2 m.calories, protein := round2 m.protein
      carbs := round2 m.carbs, fat := round2 m.fat
      fiber := 0, sugar := 0
      source := "ai_estimated", confidence := "medium" }
  | none =>
    { food := food
      calories := 0, protein := 0, carbs := 0, fat := 0, fiber := 0, sugar := 0
      source := "estimated", confidence := "unknown" }

/-- `NutritionAgent._lookup_single_food` on the path where the USDA
search returned a candidate: scale its nutrients to the serving, tag
provenance `"usda"` and the match confidence. -/
def lookupSingleFoodHit (food : ParsedFood) (best_match : Candidate) : EnrichedFood :=
  let nutrition := calculate_nutrition_for_serving best_match food.quantity food.unit
  { food := food
    calories := nutrition.calories, protein := nutrition.protein
    carbs := nutrition.carbs, fat := nutrition.fat
    fiber := nutrition.fiber, sugar := nutrition.sugar
    source := "usda"
    confidence := calcMatchConfidence food.name best_match.description }

/-- The externally determined outcome of resolving one item: the USDA
search returned a top candidate (`hit`); it returned no results
(`noResult`), falling back to the AI estimate; or
`_lookup_single_food` raised and the exception was caught in the
`lookup_nutrition` loop (`raised`), likewise falling back. -/
inductive LookupOutcome where
  | hit (best_match : Candidate)
  | noResult (resp : AIResp)
  | raised (resp : AIResp)

/-- `NutritionAgent.lookup_nutrition`: resolve each item independently;
every failure path degrades to `_create_fallback_food`, never dropping
an item or raising to the caller (the model is a total function). -/
def lookupNutrition (outcome : ParsedFood → LookupOutcome) (parsed_foods : List ParsedFood) :
    List EnrichedFood :=
  parsed_foods.map fun food =>
    match outcome food with
    | .hit best_match => lookupSingleFoodHit food best_match
    | .noResult resp => createFallbackFood food resp
    | .raised resp => createFallbackFood food resp

/-- Summed totals of a meal, as `NutritionAgent.calculate_totals`. -/
structure Totals where
  calories : ℚ
  protein : ℚ
  carbs : ℚ
  fat : ℚ
  fiber : ℚ
  sugar : ℚ
deriving DecidableEq, Repr

/-- `NutritionAgent.calculate_totals`: elementwise sums, each rounded to
2 decimals at the end. -/
def calculateTotals (enriched_foods : List EnrichedFood) : Totals :=
  let t := enriched_foods.foldl
    (fun acc f =>
      { calories := acc.calories + f.calories
        protein := acc.protein + f.protein
        carbs := acc.carbs + f.carbs
        fat := acc.fat + f.fat
        fiber := acc.fiber + f.fiber
        sugar := acc.sugar + f.sugar : Totals })
    ⟨0, 0, 0, 0, 0, 0⟩
  { calories := round2 t.calories, protein := round2 t.protein
    carbs := round2 t.carbs, fat := round2 t.fat
    fiber := round2 t.fiber, sugar := round2 t.sugar }

/-! ## Intent router (`src/agents/router_agent.py`) -/

/-- `QUERY_PHRASES`: question patterns indicating a query about past
food, checked before any keyword table. -/
def QUERY_PHRASES : List String :=
  ["what did i eat", "what i ate", "what did i have", "what have i eaten",
   "tell me what i ate", "show me what i ate", "can you tell me what",
   "how much did i eat", "how many calories did i"]

/-- `KEYWORD_INTENTS` as an ordered association list (Python dicts
preserve insertion order, and `_match_by_keywords` iterates in that
order). -/
def keywordIntents : List (String × List String) :=
  [("query_today", ["today", "so far", "how many calories", "daily", "progress", "summary"]),
   ("query_history", ["yesterday", "last week", "this week", "history", "past",
                      "jan ", "feb ", "mar ", "apr ", "may ", "jun ",
                      "jul ", "aug ", "sep ", "oct ", "nov ", "dec ",
                      "january", "february", "march", "april", "june",
                      "july", "august", "september", "october", "november", "december"]),
   ("help", ["help", "how do", "what can", "instructions", "how to use"]),
   ("greeting", ["hi", "hello", "hey", "good morning", "good afternoon", "good evening"]),
   ("log_food", ["i had", "i ate", "ate ", "had ", "eaten", "just had",
                 "for breakfast", "for lunch", "for dinner", "for snack"])]

/-- One keyword test: keywords of at most 3 characters must match as
whole words; longer keywords match as substrings. -/
def kwMatches (msg kw : String) : Bool :=
  if kw.length ≤ 3 then hasWholeWord kw.data msg.data
  else containsSub kw.data msg.data

/-- The keyword-table loop of `_match_by_keywords`: first intent whose
keyword list has a match, in table order. -/
def firstKeywordIntent : List (String × List String) → String → Option String
  | [], _ => none
  | (intent, keywords) :: rest, msg =>
    if keywords.any (kwMatches msg) then some intent
    else firstKeywordIntent rest msg

/-- Does the lowered, stripped message contain a query phrase? -/
def hasQueryPhrase (msg : String) : Bool :=
  QUERY_PHRASES.any (fun qp => containsSub qp.data msg.data)

/-- `RouterAgent._match_by_keywords`: lower and strip the message, give
query phrases priority (returning `query_today` then `query_history`,
whichever is in the table, else `query_history`), then scan the keyword
table in order. -/
def matchByKeywords (message : String) (intent_map : List (String × List String)) :
    Option String :=
  if hasQueryPhrase (strTrim (strLower message)) then
    if intent_map.any (fun p => p.1 = "query_today") then some "query_today"
    else if intent_map.any (fun p => p.1 = "query_history") then some "query_history"
    else some "query_history"
  else firstKeywordIntent intent_map (strTrim (strLower message))

/-- Per-user context snapshot.  The source dict also carries weights and
preferences; only the fields the orchestration logic reads are kept. -/
structure UserContext where
  is_onboarded : Bool
  daily_calorie_goal : ℤ
deriving DecidableEq, Repr

/-- The result of `AIService.detect_intent` (after its own defaulting:
a malformed or failed classification yields intent `other`). -/
structure IntentResult where
  intent : String
  confidence : String
deriving DecidableEq, Repr

/-- The routing result dict: intent, confidence and the onboarding
sub-step (the `data.step` entry, absent on other paths). -/
structure RouteOut where
  intent : String
  confidence : String
  step : Option String
deriving DecidableEq, Repr

/-- `RouterAgent.route`.  `aiDetect` is the outcome of the
`detect_intent` call: `.error` models an exception escaping the call
(which the orchestrator catches).  The second component records whether
the AI classifier was consulted. -/
def route (message : String) (user_context : Option UserContext)
    (aiDetect : Except String IntentResult) : Except String (RouteOut × Bool) :=
  let keywordPath : Except String (RouteOut × Bool) :=
    match matchByKeywords message keywordIntents with
    | some keyword_intent => .ok (⟨keyword_intent, "high", none⟩, false)
    | none => aiDetect.map fun r => (⟨r.intent, r.confidence, none⟩, true)
  match user_context with
  | some ctx =>
    if !ctx.is_onboarded then
      if (matchByKeywords message [("greeting",
          (keywordIntents.lookup "greeting").getD [])]).isSome then
        .ok (⟨"onboarding_needed", "high", some "welcome"⟩, false)
      else .ok (⟨"onboarding_needed", "high", some "start"⟩, false)
    else keywordPath
  | none => keywordPath

/-! ## Date reference resolver (`CalorieBotOrchestrator._parse_date_reference`) -/

/-- Python `date.weekday()` on a proleptic-Gregorian ordinal (Monday is
0; ordinal 1 is a Monday). -/
def pyWeekday (ordinal : ℤ) : ℤ := (ordinal + 6) % 7

/-- `_parse_date_reference`.  Dates are proleptic-Gregorian ordinals;
`fuzzy` is the outcome of the `dateutil` fuzzy parse of the full
message (`none` when it raises), and `fmt` renders a date as its
`"%b %d, %Y"` label — both are external collaborators. -/
def parseDateReference (message : String) (today : ℤ) (fuzzy : Option ℤ)
    (fmt : ℤ → String) : ℤ × ℤ × String :=
  let msg := strLower message
  if containsSub "yesterday".data msg.data then
    (today - 1, today - 1, "Yesterday")
  else if containsSub "last week".data msg.data then
    (today - 7, today - 1, "Last 7 Days")
  else if containsSub "this week".data msg.data then
    (today - pyWeekday today, today, "This Week")
  else if containsSub "last 3 days".data msg.data
          || containsSub "past 3 days".data msg.data then
    (today - 3, today, "Last 3 Days")
  else
    match fuzzy with
    | some parsed => (parsed, parsed, fmt parsed)
    | none => (today, today, "Today")

/-! ## Persist-and-summarize node (`CalorieBotOrchestrator._store_food_log`)

User-visible response texts are abstracted to constructors carrying the
data interpolated into them. -/

/-- The distinct user-facing messages the orchestrator can produce, one
constructor per source string (in source order of appearance). -/
inductive RespMsg where
  /-- rate-limit rejection with the wait in seconds -/
  | rateLimited (wait : ℤ)
  /-- could not identify any food items in the message -/
  | parseFail
  /-- every item unresolved: ask to clarify or give calories directly -/
  | clarifyUnknown (names : List String)
  /-- logged-meal summary: all item names, then the warning listing
  unresolved items (if any), then the note listing AI-estimated items
  (if any) -/
  | loggedSummary (itemNames : List String) (warning : Option (List String))
      (aiNote : Option (List String))
  /-- exception while storing: logged-but-summary-error apology -/
  | storeError
  /-- single-day query summary -/
  | dailySummary (label : String)
  /-- date-range query summary -/
  | rangeSummary (label : String)
  /-- exception during a query -/
  | queryError
  /-- greeting for an onboarded user -/
  | greetingOnboarded
  /-- greeting for a not-yet-onboarded user -/
  | greetingWelcome
  /-- static help text -/
  | helpText
  /-- onboarding success with the computed goal and TDEE -/
  | onboardSuccess (calorieGoal : ℤ) (tdee : ℚ)
  /-- onboarding welcome instructions -/
  | onboardWelcome
  /-- generic error-handler response -/
  | errorFallback
  /-- outer exception handler apology -/
  | processError
deriving DecidableEq, Repr

/-- A persisted meal record, as created by `create_food_log`. -/
structure MealRecord where
  slack_user_id : String
  raw_text : String
  items : List EnrichedFood
  meal_type : String
  totals : Totals
deriving DecidableEq, Repr

/-- The meal type of a logging turn:
`state["enriched_foods"][0].get("meal_type", "other")`. -/
def mealTypeOf (enriched_foods : List EnrichedFood) : String :=
  ((enriched_foods.head?.bind (fun e => e.food.meal_type)).getD "other")

/-- The items of a turn that resolved to the unknown tier:
`[f for f in enriched_foods if f.get("confidence") == "unknown"]`. -/
def unknownItems (enriched_foods : List EnrichedFood) : List EnrichedFood :=
  enriched_foods.filter (fun f => f.confidence = "unknown")

/-- The items of a turn that resolved to a known tier:
`[f for f in enriched_foods if f.get("confidence") != "unknown"]`. -/
def knownItems (enriched_foods : List EnrichedFood) : List EnrichedFood :=
  enriched_foods.filter (fun f => f.confidence ≠ "unknown")

/-- The known items whose nutrition was AI-estimated:
`[f for f in known_items if f.get("source") == "ai_estimated"]`. -/
def aiItems (enriched_foods : List EnrichedFood) : List EnrichedFood :=
  (knownItems enriched_foods).filter (fun f => f.source = "ai_estimated")

/-- `_store_food_log`, on the path where storage succeeds.  Inputs: the
turn data and the current log store; returns the updated store and the
response (or `none` where the source returns the state untouched).  The
`not state["totals"]` guard of the source is always false when
`enriched_foods` is non-empty, since the totals dict then has its six
keys. -/
def storeFoodLog (user_id raw_text : String) (enriched_foods : List EnrichedFood)
    (totals : Totals) (logs : List MealRecord) :
    List MealRecord × Option RespMsg :=
  if enriched_foods.isEmpty then (logs, none)
  else
    let unknown_items := unknownItems enriched_foods
    let known_items := knownItems enriched_foods
    if known_items.isEmpty && !unknown_items.isEmpty then
      (logs, some (.clarifyUnknown (unknown_items.map (fun f => f.food.name))))
    else
      let meal_type := mealTypeOf enriched_foods
      let logs := logs ++ [{ slack_user_id := user_id, raw_text := raw_text,
                             items := enriched_foods, meal_type := meal_type,
                             totals := totals : MealRecord }]
      let ai_items := aiItems enriched_foods
      let warning := if unknown_items.isEmpty then none
                     else some (unknown_items.map (fun f => f.food.name))
      let aiNote := if ai_items.isEmpty then none
                    else some (ai_items.map (fun f => f.food.name))
      (logs, some (.loggedSummary (enriched_foods.map (fun f => f.food.name)) warning aiNote))

/-! ## Orchestrator state machine (`src/agents/orchestrator.py`)

The LangGraph workflow is straight-line per branch: `get_user_context` →
`route_intent` → conditional dispatch, with the food-logging branch
chaining `parse_food` → `lookup_nutrition` → `store_food_log`.  The
model composes the node functions in exactly that order. -/

/-- The per-turn `ConversationState`.  Fields the claims never read
(`team_id`, `history`) are kept only where they feed modelled logic. -/
structure ConvState where
  user_id : String
  team_id : String
  message : String
  intent : Option String
  user_context : Option UserContext
  parsed_foods : Option (List ParsedFood)
  enriched_foods : Option (List EnrichedFood)
  totals : Option Totals
  response : Option RespMsg
  error : Option String

/-- The six required onboarding fields, available iff the AI extraction
returned all of them non-null. -/
structure OnboardProfile where
  age : ℤ
  gender : String
  weight_kg : ℚ
  height_cm : ℚ
  activity_level : String
  goal : String

/-- The external collaborators of one turn, each as the outcome it
produces: `.error` models an exception escaping the call into the
node's `except` handler. -/
structure Collab where
  /-- `storage.get_or_create_user` outcome -/
  userCtx : Except String UserContext
  /-- `ai_service.detect_intent` call outcome (the source passes a
  `history` keyword the method does not accept, so in the current code
  this call always raises `TypeError`) -/
  aiDetect : Except String IntentResult
  /-- `food_parser.parse` call outcome: the `foods` list, or an
  exception (the source passes a `history` keyword `parse` does not
  accept, so in the current code this call always raises `TypeError`) -/
  parseResult : Except String (List ParsedFood)
  /-- per-item USDA/AI resolution outcomes -/
  outcome : ParsedFood → LookupOutcome
  /-- whether the storage reads of the query branch succeed -/
  queryOk : Bool
  /-- `dateutil` fuzzy parse of the message -/
  fuzzyDate : Option ℤ
  /-- `strftime("%b %d, %Y")` rendering -/
  fmtDate : ℤ → String
  /-- `date.today()` as an ordinal -/
  today : ℤ
  /-- AI onboarding extraction: `some` iff all six fields were found -/
  onboardData : Option OnboardProfile
  /-- current persisted meal records -/
  logs : List MealRecord

/-- `_get_user_context`: load the context, or fall back to a
not-onboarded default context and set the error marker. -/
def getUserContextNode (c : Collab) (s : ConvState) : ConvState :=
  match c.userCtx with
  | .ok u => { s with user_context := some u }
  | .error e => { s with user_context := some ⟨false, 2000⟩, error := some e }

/-- `_route_intent`: record the routed intent, or intent `error` plus
the error marker when routing raised. -/
def routeIntentNode (c : Collab) (s : ConvState) : ConvState :=
  match route s.message s.user_context c.aiDetect with
  | .ok (r, _) => { s with intent := some r.intent }
  | .error e => { s with intent := some "error", error := some e }

/-- The node-name table of `_route_by_intent` (`other` also routes to
the error handler). -/
def intentMap : List (String × String) :=
  [("onboarding_needed", "onboarding_needed"), ("log_food", "log_food"),
   ("query_today", "query_today"), ("query_history", "query_history"),
   ("greeting", "greeting"), ("help", "help"),
   ("error", "error"), ("other", "error")]

/-- `_route_by_intent`: look the intent up in the table, defaulting to
the error handler (a `None` intent also lands there, since
`state.get("intent", "error")` returns the stored `None` and the table
lookup then defaults). -/
def routeByIntent (intent : Option String) : String :=
  match intent with
  | some i => (intentMap.lookup i).getD "error"
  | none => "error"

/-- `_parse_food`: store the parsed foods; an empty list produces the
clarification response and marks the turn ended; an exception sets the
error marker and intent `error` but no response. -/
def parseFoodNode (c : Collab) (s : ConvState) : ConvState :=
  match c.parseResult with
  | .ok foods =>
    let s := { s with parsed_foods := some foods }
    if foods.isEmpty then
      { s with response := some .parseFail, intent := some "__end__" }
    else s
  | .error e => { s with error := some e, intent := some "error" }

/-- `_lookup_nutrition`: enrich and total the parsed foods when there
are any (`if state["parsed_foods"]:` is false for `None` and `[]`). -/
def lookupNutritionNode (c : Collab) (s : ConvState) : ConvState :=
  match s.parsed_foods with
  | some foods =>
    if foods.isEmpty then s
    else
      let enriched := lookupNutrition c.outcome foods
      { s with enriched_foods := some enriched,
               totals := some (calculateTotals enriched) }
  | none => s

/-- `_store_food_log` as a graph node: defers to `storeFoodLog` when
both `enriched_foods` and `totals` are set, leaving the state untouched
otherwise.  Returns the state and the updated log store. -/
def storeFoodLogNode (c : Collab) (s : ConvState) : ConvState × List MealRecord :=
  match s.enriched_foods, s.totals with
  | some enriched, some totals =>
    let (logs, resp) := storeFoodLog s.user_id s.message enriched totals c.logs
    match resp with
    | some r => ({ s with response := some r }, logs)
    | none => (s, logs)
  | _, _ => (s, c.logs)

/-- `_handle_query`: resolve the date reference and answer with the
daily or range summary; any storage exception degrades to the query
apology. -/
def handleQueryNode (c : Collab) (s : ConvState) : ConvState :=
  if c.queryOk then
    let (start, «end», label) := parseDateReference s.message c.today c.fuzzyDate c.fmtDate
    if start = «end» then { s with response := some (.dailySummary label) }
    else { s with response := some (.rangeSummary label) }
  else { s with response := some .queryError }

/-- `_handle_greeting`: greeting text depending on onboarded state. -/
def handleGreetingNode (s : ConvState) : ConvState :=
  if (s.user_context.map (fun u => u.is_onboarded)).getD false then
    { s with response := some .greetingOnboarded }
  else { s with response := some .greetingWelcome }

/-- `_handle_help`: static help text. -/
def handleHelpNode (s : ConvState) : ConvState :=
  { s with response := some .helpText }

/-- `_handle_onboarding`: on a complete six-field extraction, compute
TDEE and the calorie goal and answer with them (the user update is a
storage effect outside the modelled state); otherwise re-emit the
welcome instructions. -/
def handleOnboardingNode (c : Collab) (s : ConvState) : ConvState :=
  match c.onboardData with
  | some d =>
    let tdee := calculate_tdee d.weight_kg d.height_cm d.age d.gender d.activity_level
    let calorie_goal := calculate_calorie_goal tdee d.goal
    { s with response := some (.onboardSuccess calorie_goal tdee) }
  | none => { s with response := some .onboardWelcome }

/-- `_handle_error`: the generic fallback response. -/
def handleErrorNode (s : ConvState) : ConvState :=
  { s with response := some .errorFallback }

/-- One full pass of the compiled graph (`self.graph.invoke`): context,
routing, then the branch selected by `_route_by_intent`. -/
def runGraph (c : Collab) (s0 : ConvState) : ConvState × List MealRecord :=
  let s1 := getUserContextNode c s0
  let s2 := routeIntentNode c s1
  match routeByIntent s2.intent with
  | "onboarding_needed" => (handleOnboardingNode c s2, c.logs)
  | "log_food" =>
    let s3 := parseFoodNode c s2
    let s4 := lookupNutritionNode c s3
    storeFoodLogNode c s4
  | "query_today" => (handleQueryNode c s2, c.logs)
  | "query_history" => (handleQueryNode c s2, c.logs)
  | "greeting" => (handleGreetingNode s2, c.logs)
  | "help" => (handleHelpNode s2, c.logs)
  | _ => (handleErrorNode s2, c.logs)

/-- The dict `process_message` returns, plus the resulting log store. -/
structure ProcessResult where
  response : Option RespMsg
  intent : Option String
  error : Option String
  logs : List MealRecord

/-- `CalorieBotOrchestrator.process_message`.  Rate-limit check first
(the limiter is constructed with 10 requests / 60 seconds); on
rejection, the wait message with `int(time_until_allowed(user)) + 1`
seconds.  Otherwise run the graph.  The source reads the response as
`final_state.get("response", "...")`, but the `response` key is always
present in the final state (it is initialized to `None`), so the
default never applies and the returned response is exactly the state
field — `none` when no node set it. -/
def processMessage (c : Collab) (now : ℚ) (bucket : List ℚ)
    (user_id team_id message : String) : ProcessResult :=
  let (allowed, bucket2) := isAllowed 10 60 now bucket
  if !allowed then
    let wait := ⌊timeUntilAllowed 10 60 now bucket2⌋ + 1
    { response := some (.rateLimited wait), intent := some "rate_limited",
      error := none, logs := c.logs }
  else
    let s0 : ConvState :=
      { user_id := user_id, team_id := team_id, message := message,
        intent := none, user_context := none, parsed_foods := none,
        enriched_foods := none, totals := none, response := none, error := none }
    let (final_state, logs) := runGraph c s0
    { response := final_state.response, intent := final_state.intent,
      error := final_state.error, logs := logs }

/-! ## Claim-side definitions

Definitions transcribing the wording of spec claims, to be compared
with the definitions translated from the source, plus concrete sample
values used by witnesses. -/

/-- The match-confidence rule exactly as the spec states it: substring
containment in either direction gives `high`; otherwise at least 50%
token overlap gives `medium`; otherwise `low`.  (The source has an
additional full-coverage case the spec omits.) -/
def specConfidenceRule (query matched_description : String) : String :=
  let query_lower := strLower query
  let matched_lower := strLower matched_description
  if containsSub query_lower.data matched_lower.data
     || containsSub matched_lower.data query_lower.data then "high"
  else
    let query_words := (splitWS query_lower).dedup
    let matched_words := (splitWS matched_lower).dedup
    let overlap := (query_words.filter (fun w => matched_words.contains w)).length
    if query_words.length ≤ 2 * overlap then "medium"
    else "low"

/-- The match-confidence rule as amended: substring containment in
either direction gives `high`; otherwise, if every distinct query token
appears among the description tokens, also `high`; otherwise at least
50% token overlap gives `medium`; otherwise `low`. -/
def amendedConfidenceRule (query matched_description : String) : String :=
  let query_lower := strLower query
  let matched_lower := strLower matched_description
  if containsSub query_lower.data matched_lower.data
     || containsSub matched_lower.data query_lower.data then "high"
  else
    let query_words := (splitWS query_lower).dedup
    let matched_words := (splitWS matched_lower).dedup
    let overlap := (query_words.filter (fun w => matched_words.contains w)).length
    if query_words.length ≤ overlap then "high"
    else if query_words.length ≤ 2 * overlap then "medium"
    else "low"

/-- The date-reference contract exactly as the claim states it; it
differs from the source only in the `last/past 3 days` branch, which
the claim describes as the 3 days ending today (`today - 2 .. today`). -/
def specDateRefClaim (message : String) (today : ℤ) (fuzzy : Option ℤ)
    (fmt : ℤ → String) : ℤ × ℤ × String :=
  let msg := strLower message
  if containsSub "yesterday".data msg.data then
    (today - 1, today - 1, "Yesterday")
  else if containsSub "last week".data msg.data then
    (today - 7, today - 1, "Last 7 Days")
  else if containsSub "this week".data msg.data then
    (today - pyWeekday today, today, "This Week")
  else if containsSub "last 3 days".data msg.data
          || containsSub "past 3 days".data msg.data then
    (today - 2, today, "Last 3 Days")
  else
    match fuzzy with
    | some parsed => (parsed, parsed, fmt parsed)
    | none => (today, today, "Today")

/-- The date-reference contract as amended: identical to the claim
except that `last/past 3 days` yields the closed interval from
`today - 3` through `today` (four calendar days). -/
def specDateRefAmended (message : String) (today : ℤ) (fuzzy : Option ℤ)
    (fmt : ℤ → String) : ℤ × ℤ × String :=
  let msg := strLower message
  if containsSub "yesterday".data msg.data then
    (today - 1, today - 1, "Yesterday")
  else if containsSub "last week".data msg.data then
    (today - 7, today - 1, "Last 7 Days")
  else if containsSub "this week".data msg.data then
    (today - pyWeekday today, today, "This Week")
  else if containsSub "last 3 days".data msg.data
          || containsSub "past 3 days".data msg.data then
    (today - 3, today, "Last 3 Days")
  else
    match fuzzy with
    | some parsed => (parsed, parsed, fmt parsed)
    | none => (today, today, "Today")

/-- Sample parsed food used by witnesses. -/
def sampleFood : ParsedFood := ⟨"apple", 1, "medium", some "snack"⟩

/-- Sample unknown-tier enriched item used by witnesses. -/
def sampleUnknownItem : EnrichedFood :=
  ⟨⟨"glorp", 1, "serving", none⟩, 0, 0, 0, 0, 0, 0, "estimated", "unknown"⟩

/-- Sample database-tier enriched item used by witnesses. -/
def sampleKnownItem : EnrichedFood :=
  ⟨⟨"apple", 1, "medium", some "snack"⟩, 95, 0.5, 25, 0.3, 4.4, 19, "usda", "high"⟩

/-- Sample totals used by witnesses. -/
def sampleTotals : Totals := ⟨95, 0.5, 25, 0.3, 4.4, 19⟩

/-- Collaborator bundle for the failing `process_message` run: the user
is onboarded, the message routes to `log_food` by keyword, and the
`food_parser.parse` call raises — which is what the shipped code does
on every logging turn, since `_parse_food` passes a `history` keyword
argument that `FoodParserAgent.parse` does not accept. -/
def parseFailCollab : Collab :=
  { userCtx := .ok ⟨true, 2000⟩,
    aiDetect := .error "TypeError",
    parseResult := .error "TypeError: parse got an unexpected keyword argument",
    outcome := fun _ => .noResult .malformed,
    queryOk := true, fuzzyDate := none, fmtDate := fun _ => "", today := 739000,
    onboardData := none, logs := [] }

/-- The same collaborators but with a successful parse, for contrast:
on this path a response is produced. -/
def parseOkCollab : Collab :=
  { parseFailCollab with parseResult := .ok [sampleFood] }

/-! ## Theorems -/

/-- C10: for every TDEE and every goal-type string — unrecognized names
contributing a zero adjustment — the computed daily calorie goal equals
the integer part of `max(tdee + adjustment, 1200)` and is never below
1200; in particular a lose-weight goal whose 500-calorie deficit would
drop below 1200 is clamped to 1200. -/
theorem calorie_goal_spec (tdee : ℚ) (goal_type : String) :
    1200 ≤ calculate_calorie_goal tdee goal_type
    ∧ calculate_calorie_goal tdee goal_type = ⌊max (tdee + goalAdjustment goal_type) 1200⌋
    ∧ (goalAdjTable.lookup (strUpper goal_type) = none →
        calculate_calorie_goal tdee goal_type = ⌊max tdee 1200⌋)
    ∧ (tdee ≤ 1700 → calculate_calorie_goal tdee "lose_weight" = 1200) := by
  refine ⟨?_, rfl, ?_, ?_⟩
  · rw [show calculate_calorie_goal tdee goal_type
        = ⌊max (tdee + goalAdjustment goal_type) 1200⌋ from rfl]
    rw [Int.le_floor]
    exact_mod_cast le_max_right _ (1200 : ℚ)
  · intro h
    show (⌊max (tdee + goalAdjustment goal_type) 1200⌋ : ℤ) = _
    unfold goalAdjustment
    rw [h]
    norm_num
  · intro h
    show (⌊max (tdee + goalAdjustment "lose_weight") 1200⌋ : ℤ) = 1200
    have ha : goalAdjustment "lose_weight" = -500 := by decide
    rw [ha, max_eq_right (by linarith)]
    norm_num

/-- Witness for C10 at concrete inputs: an unrecognized goal string
keeps the TDEE, and a lose-weight goal at TDEE 1500 is clamped to
1200. -/
theorem calorie_goal_spec_witness :
    (goalAdjTable.lookup (strUpper "banana") = none
      ∧ calculate_calorie_goal 1500 "banana" = ⌊max (1500 : ℚ) 1200⌋)
    ∧ ((1500 : ℚ) ≤ 1700 ∧ calculate_calorie_goal 1500 "lose_weight" = 1200) := by
  have h := calorie_goal_spec 1500 "banana"
  exact ⟨⟨by decide, h.2.2.1 (by decide)⟩, by norm_num, h.2.2.2 (by norm_num)⟩

/-- C7: the unit normalizer looks the lowercased, stripped unit up in
its merged tables and returns `quantity * factor` on a match; for a
unit found in no table it returns `quantity * 100` when the quantity is
at most 2 and `quantity * 30` otherwise.  Matching is exact on the
case-normalized unit: units with the same normal form get the same
mass. -/
theorem unit_normalizer_spec (quantity : ℚ) (unit : String) :
    (∀ factor, all_units.lookup (strTrim (strLower unit)) = some factor →
      gramsForServing quantity unit = quantity * factor)
    ∧ (all_units.lookup (strTrim (strLower unit)) = none →
        (quantity ≤ 2 → gramsForServing quantity unit = quantity * 100)
        ∧ (2 < quantity → gramsForServing quantity unit = quantity * 30))
    ∧ (∀ unit2 : String, strTrim (strLower unit) = strTrim (strLower unit2) →
        gramsForServing quantity unit = gramsForServing quantity unit2) := by
  refine ⟨?_, ?_, ?_⟩
  · intro factor h
    unfold gramsForServing
    rw [h]
  · intro h
    unfold gramsForServing
    rw [h]
    constructor
    · intro hq; rw [if_pos hq]
    · intro hq; rw [if_neg (not_le.mpr hq)]
  · intro unit2 h
    unfold gramsForServing
    rw [h]

/-- Witness for C7 at concrete inputs: `" Slices "` normalizes into the
piece table (30 g each), and the unknown unit `"zorp"` falls to the
size heuristic on both sides of the quantity threshold. -/
theorem unit_normalizer_spec_witness :
    (all_units.lookup (strTrim (strLower " Slices ")) = some 30
      ∧ gramsForServing 4 " Slices " = 4 * 30)
    ∧ (all_units.lookup (strTrim (strLower "zorp")) = none
      ∧ gramsForServing 1 "zorp" = 1 * 100
      ∧ gramsForServing 3 "zorp" = 3 * 30) := by
  refine ⟨⟨by decide, (unit_normalizer_spec 4 " Slices ").1 30 (by decide)⟩,
          by decide,
          ((unit_normalizer_spec 1 "zorp").2.1 (by decide)).1 (by norm_num),
          ((unit_normalizer_spec 3 "zorp").2.1 (by decide)).2 (by norm_num)⟩

/-- C6 counterexample: on the message `"show last 3 days"` the resolver
returns the closed interval `today - 3 .. today` — four calendar days —
while the claim states the 3 days ending today (`today - 2 .. today`);
at `today = 739000` the two disagree. -/
theorem date_ref_counterexample :
    parseDateReference "show last 3 days" 739000 none (fun _ => "")
        = (739000 - 3, 739000, "Last 3 Days")
    ∧ specDateRefClaim "show last 3 days" 739000 none (fun _ => "")
        = (739000 - 2, 739000, "Last 3 Days")
    ∧ parseDateReference "show last 3 days" 739000 none (fun _ => "")
        ≠ specDateRefClaim "show last 3 days" 739000 none (fun _ => "") := by
  refine ⟨by decide, by decide, by decide⟩

/-- C6 amended: for every message the resolver checks the patterns in
the fixed priority order (yesterday; last week; this week; last/past 3
days; fuzzy parse; default today) and returns the stated closed
intervals, with `last/past 3 days` yielding `today - 3 .. today` (four
calendar days, not three). -/
theorem date_ref_amended_spec (message : String) (today : ℤ) (fuzzy : Option ℤ)
    (fmt : ℤ → String) :
    parseDateReference message today fuzzy fmt
      = specDateRefAmended message today fuzzy fmt := rfl

/-- C8 counterexample: for the query `"hot dog"` and candidate
description `"dog hot"` neither string contains the other, yet every
query token appears among the description tokens, so the source assigns
`high` while the claim's rule — at least 50% token overlap after the
substring test — assigns `medium`. -/
theorem match_confidence_counterexample :
    calcMatchConfidence "hot dog" "dog hot" = "high"
    ∧ specConfidenceRule "hot dog" "dog hot" = "medium"
    ∧ calcMatchConfidence "hot dog" "dog hot"
        ≠ specConfidenceRule "hot dog" "dog hot" := by
  refine ⟨by decide, by decide, by decide⟩

/-- C8 amended: for every food item with a database candidate, the
database tier scales the candidate's per-100g nutrients by
`mass_g / 100` (rounded to 2 decimals), marks the database provenance
tier (`source = "usda"`), and assigns confidence by the amended rule:
substring containment either way gives `high`, full coverage of the
query's distinct tokens by the description's tokens also gives `high`,
at least 50% token overlap gives `medium`, and anything else `low`. -/
theorem lookup_single_food_db_spec (food : ParsedFood) (best_match : Candidate) :
    (lookupSingleFoodHit food best_match).calories
        = round2 (best_match.calories * (gramsForServing food.quantity food.unit / 100))
    ∧ (lookupSingleFoodHit food best_match).protein
        = round2 (best_match.protein * (gramsForServing food.quantity food.unit / 100))
    ∧ (lookupSingleFoodHit food best_match).carbs
        = round2 (best_match.carbs * (gramsForServing food.quantity food.unit / 100))
    ∧ (lookupSingleFoodHit food best_match).fat
        = round2 (best_match.fat * (gramsForServing food.quantity food.unit / 100))
    ∧ (lookupSingleFoodHit food best_match).source = "usda"
    ∧ provenanceOf (lookupSingleFoodHit food best_match) = .database
    ∧ (lookupSingleFoodHit food best_match).confidence
        = amendedConfidenceRule food.name best_match.description :=
  ⟨rfl, rfl, rfl, rfl, rfl, rfl, rfl⟩

/-- C9 (code bug): with the user onboarded and the message keyword-routed
to `log_food`, a raised parse call — which the shipped code triggers on
every logging turn by passing a `history` keyword `parse` does not
accept — leaves the turn's response unset, and `process_message`
returns a `None` response because the `response` key is present (with
value `None`) in the final state, so the `dict.get` default never
applies.  For contrast, the same turn with a successful parse produces
a response. -/
theorem process_message_parse_failure_drops_response :
    (processMessage parseFailCollab 0 [] "U1" "T1" "i had an apple").response = none
    ∧ (processMessage parseFailCollab 0 [] "U1" "T1" "i had an apple").intent
        = some "error"
    ∧ (processMessage parseFailCollab 0 [] "U1" "T1" "i had an apple").error
        = some "TypeError: parse got an unexpected keyword argument"
    ∧ (processMessage parseOkCollab 0 [] "U1" "T1" "i had an apple").response
        = some (.clarifyUnknown ["apple"]) := by
  refine ⟨by decide, by decide, by decide, by decide⟩

/-- C1: for every list of parsed food items and every behavior of the
database and AI collaborators, the resolution chain returns a list of
exactly the same length, every returned item carries one of the three
provenance tags, and any per-item failure — a raised lookup included —
is converted into the fallback record for that item rather than
shortening the batch (the model of `lookup_nutrition` is a total
function: every exception path is caught in the source). -/
theorem lookup_nutrition_batch_spec (outcome : ParsedFood → LookupOutcome)
    (parsed_foods : List ParsedFood) :
    (lookupNutrition outcome parsed_foods).length = parsed_foods.length
    ∧ (∀ e ∈ lookupNutrition outcome parsed_foods,
        e.source = "usda" ∨ e.source = "ai_estimated" ∨ e.source = "estimated")
    ∧ (∀ food ∈ parsed_foods, ∀ resp, outcome food = .raised resp →
        createFallbackFood food resp ∈ lookupNutrition outcome parsed_foods) := by
  refine ⟨List.length_map _ _, ?_, ?_⟩
  · intro e he
    simp only [lookupNutrition, List.mem_map] at he
    obtain ⟨f, hf, rfl⟩ := he
    cases ho : outcome f with
    | hit best_match => simp [ho, lookupSingleFoodHit]
    | noResult resp =>
      cases har : aiEstimateNutrition resp <;> simp [ho, createFallbackFood, har]
    | raised resp =>
      cases har : aiEstimateNutrition resp <;> simp [ho, createFallbackFood, har]
  · intro food hfood resp h
    simp only [lookupNutrition, List.mem_map]
    exact ⟨food, hfood, by simp [h]⟩

/-- Witness for C1 at a concrete input: a singleton batch whose lookup
raises yields the fallback record, with its provenance tag being one of
the three. -/
theorem lookup_nutrition_batch_spec_witness :
    ((createFallbackFood sampleFood .malformed).source = "usda"
      ∨ (createFallbackFood sampleFood .malformed).source = "ai_estimated"
      ∨ (createFallbackFood sampleFood .malformed).source = "estimated")
    ∧ createFallbackFood sampleFood .malformed
        ∈ lookupNutrition (fun _ => .raised .malformed) [sampleFood] := by
  have h := lookup_nutrition_batch_spec (fun _ => .raised .malformed) [sampleFood]
  exact ⟨h.2.1 _ (h.2.2 sampleFood (by decide) .malformed rfl),
         h.2.2 sampleFood (by decide) .malformed rfl⟩

/-- C2: for every food item whose database lookup yields no candidate
and whose AI estimate fails (explicit unknown signal, malformed
response, or non-positive calories), the chain returns a record with
calories, protein, carbs and fat all zero, confidence tag `unknown`,
and the unknown provenance tier (`source = "estimated"`, the tag the
formatter also treats as not-in-database). -/
theorem fallback_unknown_spec (food : ParsedFood) (resp : AIResp)
    (h : aiEstimateNutrition resp = none) :
    (createFallbackFood food resp).calories = 0
    ∧ (createFallbackFood food resp).protein = 0
    ∧ (createFallbackFood food resp).carbs = 0
    ∧ (createFallbackFood food resp).fat = 0
    ∧ (createFallbackFood food resp).confidence = "unknown"
    ∧ provenanceOf (createFallbackFood food resp) = .unknown
    ∧ lookupNutrition (fun _ => .noResult resp) [food]
        = [createFallbackFood food resp] := by
  have hc : createFallbackFood food resp =
      { food := food, calories := 0, protein := 0, carbs := 0, fat := 0,
        fiber := 0, sugar := 0, source := "estimated", confidence := "unknown" } := by
    unfold createFallbackFood
    rw [h]
  refine ⟨by rw [hc], by rw [hc], by rw [hc], by rw [hc], by rw [hc], ?_, ?_⟩
  · rw [hc]
    rfl
  · simp [lookupNutrition]

/-- Witness for C2 at the spec's end-to-end example: a fictional food
with no database match and a malformed AI estimate resolves to zero
nutrients, confidence `unknown`, unknown provenance. -/
theorem fallback_unknown_spec_witness :
    aiEstimateNutrition .malformed = none
    ∧ (createFallbackFood ⟨"extremely_rare_fictional_food_xyz", 1, "serving", none⟩
        .malformed).calories = 0
    ∧ (createFallbackFood ⟨"extremely_rare_fictional_food_xyz", 1, "serving", none⟩
        .malformed).confidence = "unknown"
    ∧ provenanceOf (createFallbackFood
        ⟨"extremely_rare_fictional_food_xyz", 1, "serving", none⟩ .malformed)
        = .unknown := by
  have h := fallback_unknown_spec
    ⟨"extremely_rare_fictional_food_xyz", 1, "serving", none⟩ .malformed rfl
  exact ⟨rfl, h.1, h.2.2.2.2.1, h.2.2.2.2.2.1⟩

/-- C3: in the persist-and-summarize node, if every enriched item of
the turn resolved to the unknown tier then no meal record is created
(the log store is returned unchanged) and the response asks the user to
clarify or give calories directly; otherwise exactly one meal record is
appended, containing all the items of the turn (the non-unknown ones
plus any unknown ones — which carry zero nutrients whenever the chain
produced them), and the response carries the warning listing the
unresolved items exactly when there are any, and the distinct
AI-estimation note exactly when there are AI-estimated items. -/
theorem store_food_log_policy (user_id raw_text : String)
    (enriched : List EnrichedFood) (totals : Totals) (logs : List MealRecord) :
    (enriched ≠ [] → (∀ e ∈ enriched, e.confidence = "unknown") →
      storeFoodLog user_id raw_text enriched totals logs
        = (logs, some (.clarifyUnknown (enriched.map fun f => f.food.name))))
    ∧ (∀ e0 ∈ enriched, e0.confidence ≠ "unknown" →
        storeFoodLog user_id raw_text enriched totals logs
          = (logs ++ [{ slack_user_id := user_id, raw_text := raw_text,
                        items := enriched, meal_type := mealTypeOf enriched,
                        totals := totals }],
             some (.loggedSummary (enriched.map fun f => f.food.name)
               (if (unknownItems enriched).isEmpty then none
                else some ((unknownItems enriched).map fun f => f.food.name))
               (if (aiItems enriched).isEmpty then none
                else some ((aiItems enriched).map fun f => f.food.name)))))
    ∧ ((∀ e ∈ enriched, e.confidence = "unknown" →
          e.calories = 0 ∧ e.protein = 0 ∧ e.carbs = 0 ∧ e.fat = 0) →
        ∀ r : MealRecord, r.items = enriched →
          ∀ e ∈ r.items, e.confidence = "unknown" →
            e.calories = 0 ∧ e.protein = 0 ∧ e.carbs = 0 ∧ e.fat = 0) := by
  refine ⟨?_, ?_, ?_⟩
  · intro hne hall
    have hunk : unknownItems enriched = enriched :=
      List.filter_eq_self.mpr (fun a ha => by simpa using hall a ha)
    have hknw : knownItems enriched = [] :=
      List.filter_eq_nil_iff.mpr (fun a ha => by simpa using hall a ha)
    unfold storeFoodLog
    rw [hunk, hknw]
    simp [List.isEmpty_iff, hne]
  · intro e0 he0 hne0
    have h0 : e0 ∈ knownItems enriched :=
      List.mem_filter.mpr ⟨he0, by simpa using hne0⟩
    have hknw : (knownItems enriched).isEmpty = false := by
      simp [List.isEmpty_iff]
      exact List.ne_nil_of_mem h0
    have hne : enriched.isEmpty = false := by
      simp [List.isEmpty_iff]
      exact List.ne_nil_of_mem he0
    simp only [storeFoodLog]
    rw [hne, hknw]
    simp
  · intro hz r hr e he hu
    rw [hr] at he
    exact hz e he hu

/-- Witness for C3 at concrete inputs: a turn of one unknown item
creates no record and asks for clarification; a turn of one known and
one unknown item appends exactly one record holding both items, with
the warning naming the unknown one and no AI note. -/
theorem store_food_log_policy_witness :
    storeFoodLog "U1" "glorp" [sampleUnknownItem] sampleTotals []
      = ([], some (.clarifyUnknown ["glorp"]))
    ∧ storeFoodLog "U1" "an apple and a glorp" [sampleKnownItem, sampleUnknownItem]
        sampleTotals []
      = ([{ slack_user_id := "U1", raw_text := "an apple and a glorp",
            items := [sampleKnownItem, sampleUnknownItem], meal_type := "snack",
            totals := sampleTotals }],
         some (.loggedSummary ["apple", "glorp"] (some ["glorp"]) none)) := by
  have h1 := (store_food_log_policy "U1" "glorp" [sampleUnknownItem]
    sampleTotals []).1 (by simp)
    (by intro e he; rw [List.mem_singleton] at he; subst he; rfl)
  have h2 := (store_food_log_policy "U1" "an apple and a glorp"
    [sampleKnownItem, sampleUnknownItem] sampleTotals []).2.1 sampleKnownItem
    (List.mem_cons_self _ _) (by decide)
  exact ⟨h1, h2⟩

/-- C4: for an onboarded user, keyword routing checks the explicit
query phrasing before the food-logging keywords — `"What did I eat
today?"` routes to the query intent `query_today`, never to
`log_food` — and keywords of at most 3 characters match only as whole
words, so `"chicken sandwich"` matches no keyword at all (in
particular not `greeting` via the substring `"hi"`); whenever any
keyword matches, the result is produced without consulting the AI
classifier and is the same deterministic function of the message
whatever the classifier would have returned. -/
theorem router_keyword_spec (ctx : UserContext) (hOn : ctx.is_onboarded = true)
    (aiDetect : Except String IntentResult) :
    route "What did I eat today?" (some ctx) aiDetect
      = .ok (⟨"query_today", "high", none⟩, false)
    ∧ matchByKeywords "What did I eat today?" keywordIntents = some "query_today"
    ∧ matchByKeywords "chicken sandwich" keywordIntents = none
    ∧ (∀ message k, matchByKeywords message keywordIntents = some k →
        route message (some ctx) aiDetect = .ok (⟨k, "high", none⟩, false))
    ∧ (∀ message, hasQueryPhrase (strTrim (strLower message)) = true →
        matchByKeywords message keywordIntents = some "query_today") := by
  have hkw : ∀ message k, matchByKeywords message keywordIntents = some k →
      route message (some ctx) aiDetect = .ok (⟨k, "high", none⟩, false) := by
    intro message k hk
    simp [route, hOn, hk]
  refine ⟨hkw _ _ (by decide), by decide, by decide, hkw, ?_⟩
  intro message hq
  unfold matchByKeywords
  rw [hq, if_pos rfl, if_pos (by decide)]

/-- Witness for C4 at concrete inputs: the query message and a keyword
logging message both route deterministically with the classifier
unavailable, and a query phrase forces the query intent. -/
theorem router_keyword_spec_witness :
    route "What did I eat today?" (some ⟨true, 2000⟩) (.error "TypeError")
      = .ok (⟨"query_today", "high", none⟩, false)
    ∧ route "i had an apple" (some ⟨true, 2000⟩) (.error "TypeError")
      = .ok (⟨"log_food", "high", none⟩, false)
    ∧ matchByKeywords "how much did i eat" keywordIntents = some "query_today" := by
  have h := router_keyword_spec ⟨true, 2000⟩ rfl (.error "TypeError")
  exact ⟨h.1, h.2.2.2.1 "i had an apple" "log_food" (by decide),
         h.2.2.2.2 "how much did i eat" (by decide)⟩

/-- C5: `is_allowed` first prunes timestamps older than the window and
admits — recording the current timestamp — exactly when the pruned
count is below the maximum; with exactly `max_requests` recorded calls
all within the window the next call returns `False` and leaves the
bucket unchanged; and once the window has elapsed past the oldest
recorded timestamp (the bucket head, since timestamps are appended in
call order) a subsequent call is admitted again. -/
theorem rate_limiter_spec (m : ℕ) (w now : ℚ) (b : List ℚ) :
    ((isAllowed m w now b).1 = true ↔ (prune w now b).length < m)
    ∧ ((prune w now b).length < m →
        (isAllowed m w now b).2 = prune w now b ++ [now])
    ∧ (m ≤ (prune w now b).length → (isAllowed m w now b).2 = prune w now b)
    ∧ (b.length = m → (∀ t ∈ b, now - w < t) → isAllowed m w now b = (false, b))
    ∧ (∀ h tl, b = h :: tl → b.length = m → h + w ≤ now →
        (isAllowed m w now b).1 = true) := by
  have hiA : isAllowed m w now b =
      if m ≤ (prune w now b).length then (false, prune w now b)
      else (true, prune w now b ++ [now]) := rfl
  refine ⟨?_, ?_, ?_, ?_, ?_⟩
  · rw [hiA]
    by_cases hc : m ≤ (prune w now b).length
    · simp [hc]
    · simp [hc]
      omega
  · intro h
    rw [hiA, if_neg (by omega)]
  · intro h
    rw [hiA, if_pos h]
  · intro hlen hall
    have hp : prune w now b = b :=
      List.filter_eq_self.mpr (fun a ha => by simpa using hall a ha)
    rw [hiA, hp, hlen, if_pos (le_refl m)]
  · intro h tl hb hlen hhw
    have hdrop : prune w now b = prune w now tl := by
      rw [hb]
      simp [prune, List.filter_cons, show ¬(now - w < h) from by linarith]
    have htl : tl.length + 1 = m := by
      rw [hb] at hlen
      simpa using hlen
    have hlt : (prune w now b).length < m := by
      rw [hdrop]
      have hle := List.length_filter_le (fun t => decide (now - w < t)) tl
      simp only [prune]
      omega
    rw [hiA, if_neg (by omega)]

/-- Witness for C5 at concrete inputs (limit 2, window 60): with both
recorded calls in-window the third call at time 20 is rejected with the
bucket unchanged, and a later call at time 70 — past the oldest
timestamp plus the window — is admitted again. -/
theorem rate_limiter_spec_witness :
    isAllowed 2 60 20 [0, 10] = (false, [0, 10])
    ∧ (isAllowed 2 60 70 [0, 10]).1 = true := by
  have h1 := rate_limiter_spec 2 60 20 [0, 10]
  have h2 := rate_limiter_spec 2 60 70 [0, 10]
  exact ⟨h1.2.2.2.1 (by decide) (by intro t ht; fin_cases ht <;> norm_num),
         h2.2.2.2.2 0 [10] rfl (by decide) (by norm_num)⟩

end CalorieBot
